import Mathlib

/-!
Verification development for the `lab2` OpenMM notebook
(`openmm_sims` Jupyter notebook).

The notebook is straight-line glue code: it loads an ethane structure and
force field, builds an OpenMM simulation, minimizes energy, equilibrates,
runs a production run, then repeats the whole pipeline for butane, and
finally analyzes the ethane trajectory with MDTraj.  All numeric
configuration values below are the literal values embedded in the
notebook's code cells; the recorded console outputs embedded below are the
literal outputs stored in the notebook's output cells.
-/

/-! ## Configuration constants (literal values from the notebook cells) -/

/-- Target temperature (K) passed to `mm.LangevinIntegrator` for the ethane
run: `298.15*unit.kelvin`. -/
def ethaneIntegratorTemperature : ℚ := 298.15

/-- Temperature (K) passed to `simulation.context.setVelocitiesToTemperature`
in the ethane equilibration: `150.0*unit.kelvin`. -/
def ethaneVelocityTemperature : ℚ := 150.0

/-- Target temperature (K) passed to `mm.LangevinIntegrator` for the butane
run: `298.15*unit.kelvin`. -/
def butaneIntegratorTemperature : ℚ := 298.15

/-- Temperature (K) passed to `setVelocitiesToTemperature` in the butane
equilibration: `298*unit.kelvin`. -/
def butaneVelocityTemperature : ℚ := 298

/-- Integration timestep in femtoseconds, `2.0*unit.femtoseconds`, used by
both runs. -/
def timestepFemtoseconds : ℚ := 2.0

/-- `maxIterations` argument of `simulation.minimizeEnergy` (both runs). -/
def minimizeMaxIterations : ℕ := 100

/-- Ethane equilibration step count: `simulation.step(2500)`. -/
def ethaneEquilSteps : ℕ := 2500

/-- Ethane production step count: `simulation.step(10000000)`. -/
def ethaneProductionSteps : ℕ := 10000000

/-- Ethane equilibration `StateDataReporter` interval: `100`. -/
def ethaneEquilReportInterval : ℕ := 100

/-- Ethane production `StateDataReporter` interval: `250000`. -/
def ethaneProdReportInterval : ℕ := 250000

/-- Butane equilibration step count: `simulation.step(5000)`. -/
def butaneEquilSteps : ℕ := 5000

/-- Butane production step count: `simulation.step(20000000)`. -/
def butaneProductionSteps : ℕ := 20000000

/-- Butane equilibration `StateDataReporter` interval: `250`. -/
def butaneEquilReportInterval : ℕ := 250

/-- Butane production `StateDataReporter` interval: `500000`. -/
def butaneProdReportInterval : ℕ := 500000

/-- DCD trajectory reporter interval (both runs): `100`. -/
def dcdReportInterval : ℕ := 100

/-- File name given to `app.DCDReporter` in the butane production run. -/
def butaneDcdFile : String := "butane_sim.dcd"

/-- File name given to `app.DCDReporter` in the ethane production run. -/
def ethaneDcdFile : String := "ethane_sim.dcd"

/-! ## Recorded minimization energies

The notebook's output cells record the potential energy printed before and
after `simulation.minimizeEnergy(maxIterations=100)` in each run. -/

/-- Recorded ethane potential energy (kJ/mol) before minimization:
`4.467818271065182 kJ/mol`. -/
def ethanePotentialBeforeMin : ℚ := 4.467818271065182

/-- Recorded ethane potential energy (kJ/mol) after minimization:
`4.389967724953268 kJ/mol`. -/
def ethanePotentialAfterMin : ℚ := 4.389967724953268

/-- Recorded butane potential energy (kJ/mol) before minimization:
`5.797528692127868 kJ/mol`. -/
def butanePotentialBeforeMin : ℚ := 5.797528692127868

/-- Recorded butane potential energy (kJ/mol) after minimization:
`5.295784483017486 kJ/mol`. -/
def butanePotentialAfterMin : ℚ := 5.295784483017486

/-! ## Pipeline stages

The notebook is straight-line code, so each run's dynamic trace is the
literal sequence of external-library calls appearing in its cells, in
source order. -/

/-- One external-library call made by the notebook. -/
inductive Stage where
  | loadStructure
  | loadForceField
  | buildSystem
  | buildIntegrator
  | buildSimulation
  | setPositions
  | readEnergy
  | minimize
  | addStateReporter
  | addDcdReporter
  | clearReporters
  | setVelocities
  | integrate (n : ℕ)
  | loadTrajectory
  | visualize
  | topologyTable
  | computeDistances
  | plotHistogram
  deriving DecidableEq, Repr

/-- Which molecule's run a call belongs to. -/
inductive Mol where
  | ethane
  | butane
  deriving DecidableEq, Repr

/-- The full notebook execution trace in cell order: the ethane simulation
cells, then the butane "Your Turn" cell, then the analysis cells (which
load and analyze `ethane_sim.dcd`, hence are tagged ethane). -/
def notebookTrace : List (Mol × Stage) :=
  [ (.ethane, .loadStructure)
  , (.ethane, .loadForceField)
  , (.ethane, .buildSystem)
  , (.ethane, .buildIntegrator)
  , (.ethane, .buildSimulation)
  , (.ethane, .setPositions)
  , (.ethane, .readEnergy)
  , (.ethane, .minimize)
  , (.ethane, .readEnergy)
  , (.ethane, .addStateReporter)
  , (.ethane, .setVelocities)
  , (.ethane, .integrate 2500)
  , (.ethane, .clearReporters)
  , (.ethane, .addStateReporter)
  , (.ethane, .addDcdReporter)
  , (.ethane, .integrate 10000000)
  , (.butane, .loadStructure)
  , (.butane, .loadForceField)
  , (.butane, .buildSystem)
  , (.butane, .buildIntegrator)
  , (.butane, .buildSimulation)
  , (.butane, .setPositions)
  , (.butane, .readEnergy)
  , (.butane, .minimize)
  , (.butane, .readEnergy)
  , (.butane, .addStateReporter)
  , (.butane, .setVelocities)
  , (.butane, .integrate 5000)
  , (.butane, .clearReporters)
  , (.butane, .addStateReporter)
  , (.butane, .addDcdReporter)
  , (.butane, .integrate 20000000)
  , (.ethane, .loadTrajectory)
  , (.ethane, .visualize)
  , (.ethane, .topologyTable)
  , (.ethane, .computeDistances)
  , (.ethane, .plotHistogram) ]

/-- The ethane run's trace: the ethane-tagged calls of the notebook, in
order. -/
def ethaneTrace : List Stage :=
  (notebookTrace.filter (fun p => p.1 == Mol.ethane)).map (fun p => p.2)

/-- The butane run's trace: the butane-tagged calls of the notebook, in
order. -/
def butaneTrace : List Stage :=
  (notebookTrace.filter (fun p => p.1 == Mol.butane)).map (fun p => p.2)

/-- Whether a stage is an integration (`simulation.step`) call. -/
def Stage.isIntegrate : Stage → Bool
  | .integrate _ => true
  | _ => false

/-- Whether a stage belongs to trajectory analysis. -/
def Stage.isAnalysis : Stage → Bool
  | .loadTrajectory => true
  | .visualize => true
  | .topologyTable => true
  | .computeDistances => true
  | .plotHistogram => true
  | _ => false

/-- The documented stage ordering for one run with equilibration step count
`equilN` and production step count `prodN`: all pipeline stages are
present; loading precedes building the simulation, which precedes
minimization, which precedes setting velocities, which precedes the
equilibration integration, which precedes the production integration; every
integration call comes after minimization; and every analysis call comes
after the production integration. -/
def runOrdered (t : List Stage) (equilN prodN : ℕ) : Bool :=
  t.contains Stage.loadStructure && t.contains Stage.loadForceField &&
  t.contains Stage.buildSimulation && t.contains Stage.minimize &&
  t.contains Stage.setVelocities &&
  t.contains (Stage.integrate equilN) && t.contains (Stage.integrate prodN) &&
  Nat.blt (t.findIdx (· == Stage.loadStructure)) (t.findIdx (· == Stage.buildSimulation)) &&
  Nat.blt (t.findIdx (· == Stage.loadForceField)) (t.findIdx (· == Stage.buildSimulation)) &&
  Nat.blt (t.findIdx (· == Stage.buildSimulation)) (t.findIdx (· == Stage.minimize)) &&
  Nat.blt (t.findIdx (· == Stage.minimize)) (t.findIdx (· == Stage.setVelocities)) &&
  Nat.blt (t.findIdx (· == Stage.setVelocities)) (t.findIdx (· == Stage.integrate equilN)) &&
  Nat.blt (t.findIdx (· == Stage.integrate equilN)) (t.findIdx (· == Stage.integrate prodN)) &&
  (List.range t.length).all (fun i =>
    !(t.getD i Stage.minimize).isIntegrate ||
      Nat.blt (t.findIdx (· == Stage.minimize)) i) &&
  (List.range t.length).all (fun i =>
    !(t.getD i Stage.minimize).isAnalysis ||
      Nat.blt (t.findIdx (· == Stage.integrate prodN)) i)

/-! ## Claim theorems (first group) -/

/-- C1: In both recorded runs, `simulation.minimizeEnergy` with
`maxIterations=100` did not increase the potential energy: the energy read
from the simulation state after minimization is at most the energy read
before, for ethane and for butane. -/
theorem recorded_minimization_nonincreasing :
    minimizeMaxIterations = 100 ∧
    ethanePotentialAfterMin ≤ ethanePotentialBeforeMin ∧
    butanePotentialAfterMin ≤ butanePotentialBeforeMin := by
  refine ⟨rfl, ?_, ?_⟩ <;>
    norm_num [ethanePotentialAfterMin, ethanePotentialBeforeMin,
      butanePotentialAfterMin, butanePotentialBeforeMin]

/-- C9: The ethane equilibration sets velocities to 150 K while the
Langevin integrator targets 298.15 K, and the butane equilibration sets
velocities to 298 K while its integrator targets 298.15 K; in both runs
the two temperatures differ. -/
theorem velocity_vs_integrator_temperature :
    ethaneVelocityTemperature = 150 ∧
    ethaneIntegratorTemperature = 29815 / 100 ∧
    ethaneVelocityTemperature ≠ ethaneIntegratorTemperature ∧
    butaneVelocityTemperature = 298 ∧
    butaneIntegratorTemperature = 29815 / 100 ∧
    butaneVelocityTemperature ≠ butaneIntegratorTemperature := by
  refine ⟨?_, ?_, ?_, ?_, ?_, ?_⟩ <;>
    norm_num [ethaneVelocityTemperature, ethaneIntegratorTemperature,
      butaneVelocityTemperature, butaneIntegratorTemperature]

/-- C7: Both runs execute the pipeline stages in the documented strict
order: load structure and force field, build the simulation, minimize
energy, set velocities, equilibration steps, production steps; every
integration call follows minimization, and every analysis call follows the
production run. -/
theorem pipeline_stage_order :
    runOrdered ethaneTrace ethaneEquilSteps ethaneProductionSteps = true ∧
    runOrdered butaneTrace butaneEquilSteps butaneProductionSteps = true := by
  decide

/-- C10: The butane production run integrates 20,000,000 steps at the
2 fs timestep, i.e. 40,000,000 fs = 40 ns of simulated time; it writes to
`butane_sim.dcd` every 100 steps and prints console diagnostics every
500,000 steps. -/
theorem butane_production_parameters :
    butaneProductionSteps = 20000000 ∧
    Stage.integrate butaneProductionSteps ∈ butaneTrace ∧
    (butaneProductionSteps : ℚ) * timestepFemtoseconds = 40000000 ∧
    (40000000 : ℚ) = 40 * 1000000 ∧
    butaneDcdFile = "butane_sim.dcd" ∧
    dcdReportInterval = 100 ∧
    butaneProdReportInterval = 500000 := by
  refine ⟨rfl, by decide, ?_, by norm_num, rfl, rfl, rfl⟩
  norm_num [butaneProductionSteps, timestepFemtoseconds]
/-! ## Atom-index selections (from the analysis cells) -/

/-- The bond-length selection from the analysis cell:
`bond_indices = [0, 4]`, the two carbons C1 and C2 of ethane, passed to
`md.compute_distances(traj, [bond_indices])`. -/
def bond_indices : List ℕ := [0, 4]

/-- The torsion selection from the unfinished "Your Turn" analysis cell:
`phi_indices = []` is left as an empty placeholder, and the accompanying
`compute_dihedrals` call is an unfilled placeholder as well. -/
def phi_indices : List ℕ := []

/-- Modelled from the spec: the ethane molecule is C2H6, so its topology
(file `data/ethane.pdb`, which is not under `src/`) has 8 atoms; the
notebook's atom table lists C1 at index 0 and C2 at index 4. -/
def ethaneAtomCount : ℕ := 8

/-! ## Recorded console output

The lines below are the verbatim console output stored in the notebook's
output cells: the `StateDataReporter` header and data lines of the ethane
equilibration (interval 100), ethane production (interval 250000), butane
equilibration (interval 250) and butane production (interval 500000). -/

/-- Header line emitted at the start of each equilibration report. -/
def equilConsoleHeader : String :=
  "#\"Step\",\"Potential Energy (kJ/mole)\",\"Temperature (K)\""

/-- Header line emitted at the start of each production report. -/
def prodConsoleHeader : String :=
  "#\"Step\",\"Time (ps)\",\"Potential Energy (kJ/mole)\",\"Temperature (K)\",\"Speed (ns/day)\""

/-- Recorded ethane equilibration data lines. -/
def ethaneEquilLines : List String :=
  [ "100,14.034846213609665,412.88567572831795"
  , "200,15.944912376236335,388.5507431282175"
  , "300,28.159596278419997,350.79407617666766"
  , "400,23.9520294528912,394.93212867069366"
  , "500,15.59985261631188,332.2038826503667"
  , "600,25.999676640999496,110.32820423639593"
  , "700,21.570115844409056,261.0723585511351"
  , "800,24.351522500809995,133.7906846768851"
  , "900,19.762045500392254,429.22206807823056"
  , "1000,26.91405153665985,332.1295823316184"
  , "1100,20.52274369939086,365.5866505888021"
  , "1200,22.812544039872915,242.1510425797455"
  , "1300,22.636919811118467,323.4302376205737"
  , "1400,25.35178185753454,272.2594026683726"
  , "1500,32.18577069393248,284.6804649383162"
  , "1600,17.901303322711495,237.24293435016486"
  , "1700,14.378552424757665,404.45663671410244"
  , "1800,30.059767863168634,309.1050789155913"
  , "1900,22.93406958258751,386.59972366412404"
  , "2000,28.886336838732397,219.76102578812768"
  , "2100,13.342239228830728,198.5104834847249"
  , "2200,13.533657648749337,182.60273279679996"
  , "2300,22.293607369390912,477.90226429270655"
  , "2400,18.06707276680214,411.7341226186754"
  , "2500,17.44046831198291,292.59446378885946"
  ]

/-- Recorded ethane production data lines. -/
def ethaneProdLines : List String :=
  [ "250000,500.0000000016593,14.378065665634262,202.9409878127568,0"
  , "500000,999.9999999901769,17.053142933051717,418.55256695036036,2.8e+04"
  , "750000,1499.9999999783536,12.097997078020308,332.29680251797373,2.79e+04"
  , "1000000,1999.9999999665301,30.983496808126063,207.77569112297954,2.78e+04"
  , "1250000,2499.9999999547067,29.316254526233987,293.3095917595377,2.78e+04"
  , "1500000,2999.9999999428833,21.858492133885846,344.93881211962747,2.78e+04"
  , "1750000,3499.99999993106,24.09512744619221,222.81075265149383,2.78e+04"
  , "2000000,3999.9999999192364,16.076376031470353,186.43552923010273,2.77e+04"
  , "2250000,4499.9999999992715,17.210450003614113,370.3145374086201,2.77e+04"
  , "2500000,5000.000000101135,13.09636570810093,227.74052911896055,2.74e+04"
  , "2750000,5500.000000202998,10.055229922402686,221.5629474702949,2.74e+04"
  , "3000000,6000.000000304862,19.00087542209232,103.14323592866705,2.74e+04"
  , "3250000,6500.000000406725,20.01255902366863,273.5944766271367,2.74e+04"
  , "3500000,7000.0000005085885,24.009640302243724,428.5948718905803,2.75e+04"
  , "3750000,7500.000000610452,22.145006350704946,317.60903616894836,2.75e+04"
  , "4000000,8000.000000712315,10.190369785308395,262.45263530148014,2.75e+04"
  , "4250000,8500.000000814178,22.02352490005237,293.232809521419,2.75e+04"
  , "4500000,9000.000000916041,15.658958459094965,215.30722970632047,2.75e+04"
  , "4750000,9500.000001017905,28.346990177537734,209.8991401550207,2.73e+04"
  , "5000000,10000.000001119768,20.173161724594962,496.09392701693616,2.73e+04"
  , "5250000,10500.000001221631,23.679115383107348,122.11800524162857,2.74e+04"
  , "5500000,11000.000001323495,27.17800775329998,219.56926727906298,2.74e+04"
  , "5750000,11500.000001425358,22.346489660102677,234.76557075758197,2.74e+04"
  , "6000000,12000.000001527222,15.888238168790034,583.3643278545328,2.74e+04"
  , "6250000,12500.000001629085,13.269576945371615,461.66794282414077,2.74e+04"
  , "6500000,13000.000001730948,20.83573093575547,206.08606479780994,2.74e+04"
  , "6750000,13500.000001832812,17.49084452640124,184.45569818638103,2.74e+04"
  , "7000000,14000.000001934675,15.440492532085015,295.8824689866887,2.73e+04"
  , "7250000,14500.000002036539,21.48898401558931,277.7070837895781,2.73e+04"
  , "7500000,15000.000002138402,20.20311336125821,284.83307153894646,2.71e+04"
  , "7750000,15500.000002240266,16.570082968048556,407.13339276798223,2.7e+04"
  , "8000000,16000.000002342129,31.75851252574108,365.113178094689,2.7e+04"
  , "8250000,16500.00000244399,13.69793987786912,117.19375369433797,2.7e+04"
  , "8500000,17000.000002545854,14.291288737572696,186.47164529663775,2.7e+04"
  , "8750000,17500.000002647717,23.836441198450128,298.10248477138293,2.69e+04"
  , "9000000,18000.00000274958,10.375762518245118,297.3077364935946,2.69e+04"
  , "9250000,18500.000002851444,12.511004944305798,251.41905635616985,2.7e+04"
  , "9500000,19000.000002953308,17.856991163635467,186.17260244356177,2.7e+04"
  , "9750000,19500.00000305517,26.02286475696573,321.7495702683814,2.69e+04"
  , "10000000,20000.000003157034,36.161342335388106,379.03784212199264,2.68e+04"
  ]

/-- Recorded butane equilibration data lines. -/
def butaneEquilLines : List String :=
  [ "250,35.3293610728431,377.99360963724604"
  , "500,32.914370795078696,266.32383093566114"
  , "750,54.91832565536845,338.4975975582279"
  , "1000,31.951928630267396,406.43819755911716"
  , "1250,53.82859327570476,369.464024840027"
  , "1500,59.823407955749836,197.6425679517721"
  , "1750,56.30366278285174,307.609001207952"
  , "2000,49.92505130993653,485.10406481983694"
  , "2250,14.968692250930108,300.55778667777446"
  , "2500,29.001963693973394,294.58025418518196"
  , "2750,47.887653179717425,325.61043102430165"
  , "3000,48.788049158950486,133.6404008212833"
  , "3250,50.483163386784874,266.1492111159933"
  , "3500,43.46946634541573,266.6659552455204"
  , "3750,44.108708594154514,409.8434146285466"
  , "4000,33.02809649744729,317.9246768033946"
  , "4250,37.129607070303514,440.31910053582794"
  , "4500,29.39123231117899,384.8577492390589"
  , "4750,42.53260375254895,211.37590920175268"
  , "5000,43.38049439910678,300.4623029594358"
  ]

/-- Recorded butane production data lines. -/
def butaneProdLines : List String :=
  [ "500000,999.9999999901769,38.95315187367367,231.85480480496065,0"
  , "1000000,1999.9999999665301,63.135237403741826,421.76618493105155,1.25e+04"
  , "1500000,2999.9999999428833,51.16300580487105,264.1010747131898,1.29e+04"
  , "2000000,3999.9999999192364,41.037458277416576,249.0786077611033,1.31e+04"
  , "2500000,5000.000000101135,45.33882653411905,212.02630741898636,1.27e+04"
  , "3000000,6000.000000304862,43.482241555897104,206.12408129360801,1.23e+04"
  , "3500000,7000.0000005085885,41.747659443149466,292.34637989985174,1.23e+04"
  , "4000000,8000.000000712315,38.30419708095677,362.97608048150875,1.23e+04"
  , "4500000,9000.000000916041,38.699132534672295,298.9263207564334,1.23e+04"
  , "5000000,10000.000001119768,57.03611949055889,291.8739381212588,1.23e+04"
  , "5500000,11000.000001323495,44.35161874157471,341.20600328965173,1.24e+04"
  , "6000000,12000.000001527222,41.40790794059394,208.7302545945757,1.23e+04"
  , "6500000,13000.000001730948,24.07859828031146,331.97914779757446,1.23e+04"
  , "7000000,14000.000001934675,27.22378017244852,390.41836233973385,1.24e+04"
  , "7500000,15000.000002138402,57.659167472662155,389.9176557470309,1.24e+04"
  , "8000000,16000.000002342129,61.256762600013104,172.85054110823327,1.25e+04"
  , "8500000,17000.000002545854,74.16504196075323,289.5490765756857,1.25e+04"
  , "9000000,18000.00000274958,68.4399233263666,301.36721717598476,1.24e+04"
  , "9500000,19000.000002953308,49.58916902315826,221.33597014638147,1.24e+04"
  , "10000000,20000.000003157034,35.677951332524856,386.00719094860636,1.24e+04"
  , "10500000,21000.00000336076,43.68028264558664,254.38423348410362,1.24e+04"
  , "11000000,22000.000003564488,30.879639012829777,327.0316782197346,1.23e+04"
  , "11500000,23000.000003768215,39.696109158403004,218.42819558833912,1.23e+04"
  , "12000000,24000.00000397194,37.71674932086374,384.55336663648006,1.23e+04"
  , "12500000,25000.00000417567,32.73683547159949,333.51639766438205,1.24e+04"
  , "13000000,26000.000004379395,43.18020043448763,203.18061475174,1.24e+04"
  , "13500000,27000.000004583122,51.3096169333999,186.90318991177938,1.24e+04"
  , "14000000,28000.00000478685,50.06102235087084,183.1546780298497,1.24e+04"
  , "14500000,29000.000004990576,27.255935621249993,370.1032595124919,1.24e+04"
  , "15000000,30000.000005194303,64.10025162090392,322.60082644986903,1.24e+04"
  , "15500000,31000.00000539803,47.20924642703472,222.12150579760223,1.24e+04"
  , "16000000,32000.000005601756,65.8445453049559,229.6158998262759,1.24e+04"
  , "16500000,33000.00000580548,49.916876151421775,317.36204702767884,1.24e+04"
  , "17000000,34000.000006009206,43.29850973731067,223.99466756771878,1.24e+04"
  , "17500000,35000.00000621293,42.67548106456455,423.01977701260216,1.24e+04"
  , "18000000,36000.00000641666,43.22607452756131,204.77026801436972,1.24e+04"
  , "18500000,37000.00000662039,29.003628376572582,348.56236301906057,1.24e+04"
  , "19000000,38000.00000682411,48.81945147886799,299.7198924571987,1.24e+04"
  , "19500000,39000.00000702784,46.78391360809271,182.60017315245634,1.24e+04"
  , "20000000,40000.00000723157,64.49618207639904,186.51201136016581,1.24e+04"
  ]

/-- Number of comma characters in a console line. -/
def commaCount (s : String) : ℕ := s.data.count ','

/-- Checks that the step field (the text before the first comma) of the
k-th data line equals `interval * (k+1)`, for every line. -/
def stepsAtInterval (lines : List String) (interval : ℕ) : Bool :=
  (List.range lines.length).all (fun k =>
    (lines.getD k "").data.takeWhile (fun c => !(c == ',')) ==
      (Nat.repr (interval * (k + 1))).data)

/-- C3 counterexample: the torsion selection `phi_indices` in the source is
the empty placeholder list, so it does not have length 4. -/
theorem phi_indices_not_torsion_shaped : ¬ (phi_indices.length = 4) := by
  decide

/-- C3 (amended): the bond-length selection `bond_indices` has length
exactly 2 with both indices in range for ethane's 8 atoms, while the
torsion selection `phi_indices` is the unfilled empty placeholder
(length 0), so only the bond selection satisfies the shape invariant. -/
theorem selection_shape_status :
    bond_indices.length = 2 ∧
    bond_indices.all (fun i => Nat.blt i ethaneAtomCount) = true ∧
    phi_indices.length = 0 := by
  decide

/-- C5 counterexample: no emitted console line is the literal string
`Step,PotentialEnergy(kJ/mole),Temperature(K)` nor the literal string
`Step,Time(ps),PotentialEnergy(kJ/mole),Temperature(K),Speed(ns/day)`;
the recorded headers quote each field and put spaces and a leading hash in
them, and the data lines are numeric. -/
theorem console_exact_form_not_emitted :
    "Step,PotentialEnergy(kJ/mole),Temperature(K)" ∉
      equilConsoleHeader :: (ethaneEquilLines ++ butaneEquilLines) ∧
    "Step,Time(ps),PotentialEnergy(kJ/mole),Temperature(K),Speed(ns/day)" ∉
      prodConsoleHeader :: (ethaneProdLines ++ butaneProdLines) := by
  decide

/-- C5 (amended): every recorded equilibration console line carries three
comma-separated fields (step, potential energy in kJ/mole, temperature in
K) under the recorded header, every production line carries five fields
(step, time in ps, potential energy, temperature, speed in ns/day) under
its header, and in each group the step field of the k-th data line is
exactly `interval * (k+1)` for the configured reporting interval. -/
theorem console_lines_shape :
    commaCount equilConsoleHeader = 2 ∧
    commaCount prodConsoleHeader = 4 ∧
    ethaneEquilLines.all (fun l => commaCount l == 2) = true ∧
    butaneEquilLines.all (fun l => commaCount l == 2) = true ∧
    ethaneProdLines.all (fun l => commaCount l == 4) = true ∧
    butaneProdLines.all (fun l => commaCount l == 4) = true ∧
    stepsAtInterval ethaneEquilLines ethaneEquilReportInterval = true ∧
    stepsAtInterval butaneEquilLines butaneEquilReportInterval = true ∧
    stepsAtInterval ethaneProdLines ethaneProdReportInterval = true ∧
    stepsAtInterval butaneProdLines butaneProdReportInterval = true := by
  decide

/-! ## Trajectory measurements

`md.compute_distances` and `md.compute_dihedrals` live in the external
MDTraj library, and the trajectory they consume (`ethane_sim.dcd`) is an
opaque binary artifact; both are outside `src/`.  Following the spec's
boundary contract they are modelled here as per-frame geometric
computations over a trajectory given as a list of frames of 3D coordinates
in nanometers. -/

/-- A 3D coordinate (nanometers). -/
abbrev Point3 : Type := ℝ × ℝ × ℝ

/-- Componentwise difference of two points. -/
def sub3 (p q : Point3) : Point3 := (p.1 - q.1, p.2.1 - q.2.1, p.2.2 - q.2.2)

/-- Dot product of two 3D vectors. -/
def dot3 (u v : Point3) : ℝ := u.1 * v.1 + u.2.1 * v.2.1 + u.2.2 * v.2.2

/-- Cross product of two 3D vectors. -/
def cross3 (u v : Point3) : Point3 :=
  ( u.2.1 * v.2.2 - u.2.2 * v.2.1
  , u.2.2 * v.1 - u.1 * v.2.2
  , u.1 * v.2.1 - u.2.1 * v.1 )

/-- Euclidean norm of a 3D vector. -/
noncomputable def norm3 (v : Point3) : ℝ := Real.sqrt (dot3 v v)

/-- Euclidean distance between two points. -/
noncomputable def dist3 (p q : Point3) : ℝ := norm3 (sub3 p q)

/-- Modelled from the spec: `compute-distance(trajectory, atom-pair) →
sequence of scalars`, one scalar per saved frame, the Euclidean distance in
nanometers between the pair's two atoms in that frame. -/
noncomputable def compute_distances
    (traj : List (List Point3)) (pair : ℕ × ℕ) : List ℝ :=
  traj.map (fun frame =>
    dist3 (frame.getD pair.1 (0, 0, 0)) (frame.getD pair.2 (0, 0, 0)))

/-- Dihedral (torsion) angle of four points, computed in the standard
atan2 form: the planar angle of the point
`(⟨b1 x b2⟩·⟨b2 x b3⟩, |b2| * b1·⟨b2 x b3⟩)` for the three bond vectors
`b1, b2, b3`, expressed via the complex argument, in radians. -/
noncomputable def dihedral (p1 p2 p3 p4 : Point3) : ℝ :=
  Complex.arg
    ⟨ dot3 (cross3 (sub3 p2 p1) (sub3 p3 p2)) (cross3 (sub3 p3 p2) (sub3 p4 p3))
    , norm3 (sub3 p3 p2) * dot3 (sub3 p2 p1) (cross3 (sub3 p3 p2) (sub3 p4 p3)) ⟩

/-- Modelled from the spec: `compute-dihedral(trajectory, atom-quadruple) →
sequence of scalars`, one torsion angle in radians per saved frame. -/
noncomputable def compute_dihedrals
    (traj : List (List Point3)) (quad : ℕ × ℕ × ℕ × ℕ) : List ℝ :=
  traj.map (fun frame =>
    dihedral (frame.getD quad.1 (0, 0, 0)) (frame.getD quad.2.1 (0, 0, 0))
      (frame.getD quad.2.2.1 (0, 0, 0)) (frame.getD quad.2.2.2 (0, 0, 0)))

/-- A concrete one-frame trajectory holding two atoms 1 nm apart on the
x-axis (plus two more atoms for a torsion), used to instantiate the
measurement theorems. -/
noncomputable def sampleTraj : List (List Point3) :=
  [[(0, 0, 0), (1, 0, 0), (1, 1, 0), (0, 1, 0)]]

/-- C2: every bond-length measurement returns exactly one scalar per saved
trajectory frame, and every returned value is non-negative. -/
theorem compute_distances_frames_nonneg
    (traj : List (List Point3)) (pair : ℕ × ℕ) :
    (compute_distances traj pair).length = traj.length ∧
    (compute_distances traj pair).Forall (fun d => 0 ≤ d) := by
  constructor
  · simp [compute_distances]
  · rw [List.forall_iff_forall_mem]
    intro d hd
    rw [compute_distances, List.mem_map] at hd
    obtain ⟨f, hf, rfl⟩ := hd
    exact Real.sqrt_nonneg _

/-- C2 witness: the bond-length measurement for the pair `(0, 1)` on the
concrete one-frame sample trajectory yields one non-negative scalar. -/
theorem compute_distances_frames_nonneg_witness :
    (compute_distances sampleTraj (0, 1)).length = sampleTraj.length ∧
    (compute_distances sampleTraj (0, 1)).Forall (fun d => 0 ≤ d) :=
  compute_distances_frames_nonneg sampleTraj (0, 1)

/-- C4: every torsion measurement returns exactly one scalar per saved
trajectory frame, and each returned angle lies in the half-open interval
from -pi exclusive to pi inclusive, an interval of width one full turn. -/
theorem compute_dihedrals_frames_range
    (traj : List (List Point3)) (quad : ℕ × ℕ × ℕ × ℕ) :
    (compute_dihedrals traj quad).length = traj.length ∧
    (compute_dihedrals traj quad).Forall
      (fun v => -Real.pi < v ∧ v ≤ Real.pi) := by
  constructor
  · simp [compute_dihedrals]
  · rw [List.forall_iff_forall_mem]
    intro v hv
    rw [compute_dihedrals, List.mem_map] at hv
    obtain ⟨f, hf, rfl⟩ := hv
    exact ⟨Complex.neg_pi_lt_arg _, Complex.arg_le_pi _⟩

/-- C4 witness: the torsion measurement for the quadruple `(0, 1, 2, 3)`
on the concrete one-frame sample trajectory yields one angle within a full
turn. -/
theorem compute_dihedrals_frames_range_witness :
    (compute_dihedrals sampleTraj (0, 1, 2, 3)).length = sampleTraj.length ∧
    (compute_dihedrals sampleTraj (0, 1, 2, 3)).Forall
      (fun v => -Real.pi < v ∧ v ≤ Real.pi) :=
  compute_dihedrals_frames_range sampleTraj (0, 1, 2, 3)

/-! ## Reported-series determinism

Modelled from the spec: the Langevin integrator is an external stochastic
collaborator; its behavior is modelled as a deterministic function of a
random seed giving, for each step number, the (potential energy,
temperature) pair it would report.  Wall-clock time (which the notebook
reads via `time.time` and which feeds the Speed column) is modelled as a
separate clock oracle.  The notebook itself is straight-line code with no
other source of nondeterminism. -/

/-- Reporting configuration of one run: equilibration report interval and
count, production report interval and count. -/
structure SimConfig where
  equilInterval : ℕ
  equilReports : ℕ
  prodInterval : ℕ
  prodReports : ℕ
  deriving DecidableEq, Repr

/-- The equilibration report series: for the k-th report, the step number
`equilInterval * (k+1)` together with the engine's (potential energy,
temperature) pair at that step for the given seed. -/
def equilSeries (cfg : SimConfig) (engine : ℕ → ℕ → ℚ × ℚ) (seed : ℕ) :
    List (ℕ × ℚ × ℚ) :=
  (List.range cfg.equilReports).map (fun k =>
    (cfg.equilInterval * (k + 1), engine seed (cfg.equilInterval * (k + 1))))

/-- The production report series: step, time in ps, potential energy,
temperature, and the speed figure derived from the wall clock. -/
def prodSeries (cfg : SimConfig) (engine : ℕ → ℕ → ℚ × ℚ) (seed : ℕ)
    (clock : ℕ → ℚ) : List (ℕ × ℚ × ℚ × ℚ × ℚ) :=
  (List.range cfg.prodReports).map (fun k =>
    ( cfg.prodInterval * (k + 1)
    , (cfg.prodInterval * (k + 1) : ℕ) * timestepFemtoseconds / 1000
    , (engine seed (cfg.prodInterval * (k + 1))).1
    , (engine seed (cfg.prodInterval * (k + 1))).2
    , clock k ))

/-- The reported (potential energy, temperature) sequence of a whole run:
the energy/temperature pairs of the equilibration reports followed by
those of the production reports, with the step, time and speed columns
projected away. -/
def reportedEnergyTemp (cfg : SimConfig) (engine : ℕ → ℕ → ℚ × ℚ)
    (seed : ℕ) (clock : ℕ → ℚ) : List (ℚ × ℚ) :=
  (equilSeries cfg engine seed).map (fun r => r.2) ++
  (prodSeries cfg engine seed clock).map (fun r => (r.2.2.1, r.2.2.2.1))

/-- C6: two runs of the identical configuration whose integrators use the
same seed report identical energy/temperature sequences, whatever the wall
clock does in either run: the modelled notebook introduces no
nondeterminism beyond the integrator seed. -/
theorem reported_series_seed_deterministic
    (cfg : SimConfig) (engine : ℕ → ℕ → ℚ × ℚ) (s1 s2 : ℕ)
    (clock1 clock2 : ℕ → ℚ) (h : s1 = s2) :
    reportedEnergyTemp cfg engine s1 clock1 =
      reportedEnergyTemp cfg engine s2 clock2 := by
  subst h
  unfold reportedEnergyTemp
  congr 1
  unfold prodSeries
  simp only [List.map_map]
  apply List.map_congr_left
  intro k _
  rfl

/-- The ethane run's reporting configuration. -/
def ethaneReportConfig : SimConfig := ⟨100, 25, 250000, 40⟩

/-- C6 witness: with the ethane reporting configuration, a concrete engine
and seed 0, two runs with different wall clocks report the same
energy/temperature sequence. -/
theorem reported_series_seed_deterministic_witness :
    (0 : ℕ) = 0 ∧
    reportedEnergyTemp ethaneReportConfig (fun _ s => ((s : ℚ), 300)) 0
        (fun _ => 0) =
      reportedEnergyTemp ethaneReportConfig (fun _ s => ((s : ℚ), 300)) 0
        (fun _ => 1) :=
  ⟨rfl, reported_series_seed_deterministic ethaneReportConfig
    (fun _ s => ((s : ℚ), 300)) 0 0 (fun _ => 0) (fun _ => 1) rfl⟩

/-! ## Failure propagation

Modelled from the spec: every external call can raise; the notebook has no
try/except, so Python aborts the run at the first raised exception and
surfaces it verbatim.  A run is the sequential execution of its trace where
each call may fail, in the `Except` monad. -/

/-- Runs a trace of external calls in order, stopping at the first failure
and returning that failure unchanged. -/
def runCalls {E : Type} (t : List Stage) (ops : Stage → Except E Unit) :
    Except E Unit :=
  match t with
  | [] => Except.ok ()
  | a :: rest =>
    match ops a with
    | Except.error e => Except.error e
    | Except.ok _ => runCalls rest ops

/-- If the calls before position `j` succeed and the call at `j` fails
with `e`, the whole sequential run evaluates to exactly `e`. -/
theorem runCalls_propagates {E : Type} (ops : Stage → Except E Unit) (e : E) :
    ∀ (t : List Stage) (j : ℕ), j < t.length →
    (∀ i, i < j → ops (t.getD i Stage.minimize) = Except.ok ()) →
    ops (t.getD j Stage.minimize) = Except.error e →
    runCalls t ops = Except.error e := by
  intro t
  induction t with
  | nil => intro j hj; simp at hj
  | cons a rest ih =>
    intro j hj hok herr
    cases j with
    | zero =>
      rw [List.getD_cons_zero] at herr
      simp [runCalls, herr]
    | succ j =>
      have h0 : ops a = Except.ok () := by
        have h1 := hok 0 (Nat.succ_pos j)
        rwa [List.getD_cons_zero] at h1
      simp only [runCalls, h0]
      exact ih j (by simpa using hj)
        (fun i hi => by
          have h2 := hok (i + 1) (by omega)
          rwa [List.getD_cons_succ] at h2)
        (by rwa [List.getD_cons_succ] at herr)

/-- C8: for either run of the notebook, if an external call fails with
error `e` after all earlier calls succeeded, the run's outcome is that
very error: nothing is recovered, retried, or translated. -/
theorem external_failure_propagation {E : Type} (ops : Stage → Except E Unit)
    (e : E) (t : List Stage) (j : ℕ)
    (_ht : t = ethaneTrace ∨ t = butaneTrace)
    (hj : j < t.length)
    (hok : ∀ i, i < j → ops (t.getD i Stage.minimize) = Except.ok ())
    (herr : ops (t.getD j Stage.minimize) = Except.error e) :
    runCalls t ops = Except.error e :=
  runCalls_propagates ops e t j hj hok herr

/-- A concrete behavior of the external calls in which building the system
raises (as OpenMM does on an incompatible topology/force-field pairing)
and every other call succeeds. -/
def opsFailBuild : Stage → Except String Unit :=
  fun s =>
    if s = Stage.buildSystem then Except.error "No template found for residue"
    else Except.ok ()

/-- C8 witness: on the ethane trace, with the system-build call failing and
the two calls before it succeeding, the run's outcome is exactly that
error. -/
theorem external_failure_propagation_witness :
    2 < ethaneTrace.length ∧
    runCalls ethaneTrace opsFailBuild =
      Except.error "No template found for residue" :=
  ⟨by decide,
   external_failure_propagation opsFailBuild "No template found for residue"
     ethaneTrace 2 (Or.inl rfl) (by decide)
     (fun i hi => by interval_cases i <;> rfl)
     (by rfl)⟩
